import Mathlib

/-!
Verification of `src/olcs/MVTWMSImageryProvider.ts` (the Tile Imagery Bridge of
ol-cesium's MVT/WMS imagery provider).

The development shallowly embeds the bridge: promises are identifiers, the two
OpenLayers LRU caches are association lists ordered oldest-first, tile levels
and coordinates are integers, geometry coordinates are rationals, and the
asynchronous parts (fetch settlement) are explicit state transitions.
-/

namespace OlcsMVTWMS

/-- Promise identifiers: every promise object created by the bridge gets a
fresh numeric identity.  Identifier 0 is reserved for the construction-time
`emptyCanvasPromise_` (the already-resolved placeholder surface). -/
abbrev PromiseId := Nat

/-- The placeholder promise `this.emptyCanvasPromise_ = Promise.resolve(this.emptyCanvas_)`. -/
def emptyPid : PromiseId := 0

/-- Modelled from the spec (section 4.2, Bounded Dedup Cache) and the interface of
the external collaborator `ol/structs/LRUCache.js` (not part of this repository):
a capacity-bounded cache of promises keyed by tile-coordinate strings.
`entries` is ordered oldest-first (the newest entry is at the end of the list). -/
structure LRU (V : Type) where
  entries : List (String × V)
  highWaterMark : Nat
deriving Repr

namespace LRU

/-- `getCount()`: current occupancy. -/
def getCount {V : Type} (c : LRU V) : Nat :=
  c.entries.length

/-- `containsKey(key)`. -/
def containsKey {V : Type} (c : LRU V) (k : String) : Bool :=
  c.entries.any (fun p => p.1 == k)

/-- Pure lookup of the value stored under a key (first match, keys are unique). -/
def lookup {V : Type} (c : LRU V) (k : String) : Option V :=
  (c.entries.find? (fun p => p.1 == k)).map (fun p => p.2)

/-- `get(key)`: returns the stored value and moves the entry to the newest
position (the LRU touch performed by the OpenLayers cache).  When the key is
absent it returns `none` and the cache unchanged (the source only calls `get`
after `containsKey`). -/
def get {V : Type} (c : LRU V) (k : String) : Option V × LRU V :=
  match c.entries.find? (fun p => p.1 == k) with
  | some e => (some e.2, { c with entries := c.entries.filter (fun p => !(p.1 == k)) ++ [e] })
  | none => (none, c)

/-- `set(key, value)`: inserts as the newest entry; performs no eviction itself. -/
def set {V : Type} (c : LRU V) (k : String) (v : V) : LRU V :=
  { c with entries := c.entries ++ [(k, v)] }

/-- `pop()`: removes the oldest entry. -/
def pop {V : Type} (c : LRU V) : LRU V :=
  { c with entries := c.entries.tail }

/-- `canExpireCache()`: occupancy strictly exceeds the high-water mark.
Modelled from the spec: eviction runs "until occupancy is back at or below
highWaterMark" (section 4.2). -/
def canExpireCache {V : Type} (c : LRU V) : Bool :=
  c.getCount > c.highWaterMark

/-- The caller's grooming loop `while (cache.canExpireCache()) cache.pop();`. -/
def expireLoop {V : Type} (c : LRU V) : LRU V :=
  if h : c.getCount > c.highWaterMark then expireLoop c.pop else c
termination_by c.entries.length
decreasing_by
  simp only [LRU.pop, LRU.getCount] at *
  cases hc : c.entries with
  | nil => rw [hc] at h; simp at h
  | cons a l => simp

/-- The grooming the bridge performs right after each insertion:
`if (cache.getCount() > 2 * cache.highWaterMark) { while (cache.canExpireCache()) cache.pop(); }`
(lines 251-253 and 279-281 of `MVTWMSImageryProvider.ts`). -/
def groomAfterSet {V : Type} (c : LRU V) : LRU V :=
  if c.getCount > 2 * c.highWaterMark then expireLoop c else c

theorem expireLoop_entries {V : Type} (c : LRU V) :
    (expireLoop c).entries = c.entries.drop (c.entries.length - c.highWaterMark) ∧
    (expireLoop c).highWaterMark = c.highWaterMark := by
  generalize hn : c.entries.length = n
  induction n using Nat.strong_induction_on generalizing c with
  | _ n ih =>
    rw [expireLoop]
    by_cases h : c.getCount > c.highWaterMark
    · rw [dif_pos h]
      have hlen : c.pop.entries.length = n - 1 := by
        simp [LRU.pop, ← hn]
      have hpos : 0 < n := by
        simp only [LRU.getCount] at h
        omega
      obtain ⟨h1, h2⟩ := ih (n - 1) (by omega) c.pop hlen
      refine ⟨?_, by simpa [LRU.pop] using h2⟩
      rw [h1]
      simp only [LRU.pop]
      rw [← List.drop_one, List.drop_drop]
      have harith : 1 + (n - 1 - c.highWaterMark) = n - c.highWaterMark := by
        simp only [LRU.getCount] at h
        omega
      rw [harith]
    · rw [dif_neg h]
      simp only [LRU.getCount] at h
      rw [hn] at h
      refine ⟨?_, rfl⟩
      have hz : n - c.highWaterMark = 0 := by omega
      rw [hz, List.drop_zero]

theorem expireLoop_hwm {V : Type} (c : LRU V) :
    (expireLoop c).highWaterMark = c.highWaterMark :=
  (expireLoop_entries c).2

theorem groomAfterSet_hwm {V : Type} (c : LRU V) :
    (groomAfterSet c).highWaterMark = c.highWaterMark := by
  unfold groomAfterSet
  split
  · exact expireLoop_hwm c
  · rfl

theorem containsKey_eq_false_iff {V : Type} (c : LRU V) (k : String) :
    c.containsKey k = false ↔ ∀ p ∈ c.entries, p.1 ≠ k := by
  simp [containsKey, List.any_eq_true]

theorem find?_of_fresh_key {V : Type} (l : List (String × V)) (k : String) (v : V)
    (h : ∀ p ∈ l, p.1 ≠ k) :
    (l ++ [(k, v)]).find? (fun p => p.1 == k) = some (k, v) := by
  induction l with
  | nil => simp
  | cons a t ih =>
    have ha : ¬ (a.1 == k) = true := by
      simp only [beq_iff_eq]
      exact h a (by simp)
    simp only [List.cons_append, List.find?_cons, ha]
    exact ih (fun p hp => h p (by simp [hp]))

/-- After inserting a fresh key and running the bridge's grooming, the freshly
inserted (newest) entry is still present as long as the high-water mark is
positive: grooming only pops oldest entries down to the high-water mark. -/
theorem lookup_groom_set_fresh {V : Type} (c : LRU V) (k : String) (v : V)
    (hfresh : c.containsKey k = false) (hpos : 1 ≤ c.highWaterMark) :
    (groomAfterSet (c.set k v)).lookup k = some v ∧
    (groomAfterSet (c.set k v)).highWaterMark = c.highWaterMark := by
  have hall : ∀ p ∈ c.entries, p.1 ≠ k := (containsKey_eq_false_iff c k).1 hfresh
  refine ⟨?_, groomAfterSet_hwm _⟩
  unfold groomAfterSet
  split
  · obtain ⟨h1, _⟩ := expireLoop_entries (c.set k v)
    unfold lookup
    rw [h1]
    simp only [LRU.set]
    have hlen : (c.entries ++ [(k, v)]).length = c.entries.length + 1 := by simp
    rw [hlen]
    have hle : c.entries.length + 1 - c.highWaterMark ≤ c.entries.length := by omega
    rw [List.drop_append_of_le_length hle]
    have hall2 : ∀ p ∈ c.entries.drop (c.entries.length + 1 - c.highWaterMark), p.1 ≠ k :=
      fun p hp => hall p (List.drop_subset _ _ hp)
    rw [find?_of_fresh_key _ k v hall2]
    rfl
  · unfold lookup
    simp only [LRU.set]
    rw [find?_of_fresh_key _ k v hall]
    rfl

/-- An LRU `get` hit returns the stored value, keeps the entry (moved to the
newest slot) and preserves the high-water mark. -/
theorem get_hit {V : Type} (c : LRU V) (k : String) (v : V)
    (h : c.lookup k = some v) :
    (c.get k).1 = some v ∧ ((c.get k).2).lookup k = some v ∧
    ((c.get k).2).highWaterMark = c.highWaterMark := by
  unfold lookup at h
  obtain ⟨e, he, hev⟩ : ∃ e, c.entries.find? (fun p => p.1 == k) = some e ∧ e.2 = v := by
    cases hf : c.entries.find? (fun p => p.1 == k) with
    | none => rw [hf] at h; simp at h
    | some e => rw [hf] at h; simp at h; exact ⟨e, rfl, h⟩
  have hek : e.1 = k := by
    have := List.find?_some he
    simpa [beq_iff_eq] using this
  unfold get
  rw [he]
  refine ⟨by simp [hev], ?_, rfl⟩
  unfold lookup
  have hfresh : ∀ p ∈ c.entries.filter (fun p => !(p.1 == k)), p.1 ≠ k := by
    intro p hp
    have := List.of_mem_filter hp
    simpa [beq_iff_eq] using this
  have : (c.entries.filter (fun p => !(p.1 == k)) ++ [e]) =
      (c.entries.filter (fun p => !(p.1 == k)) ++ [(k, e.2)]) := by
    congr 1
    rw [show e = (e.1, e.2) from rfl, hek]
  simp only
  rw [this, find?_of_fresh_key _ k e.2 hfresh]
  simp [hev]

theorem lookup_isSome_containsKey {V : Type} (c : LRU V) (k : String) (v : V)
    (h : c.lookup k = some v) : c.containsKey k = true := by
  unfold lookup at h
  unfold containsKey
  cases hf : c.entries.find? (fun p => p.1 == k) with
  | none => rw [hf] at h; simp at h
  | some e =>
    have hmem := List.mem_of_find?_eq_some hf
    have hpk := List.find?_some hf
    simp only [List.any_eq_true]
    exact ⟨e, hmem, hpk⟩

end LRU

/-- A decoded vector feature (`ol/render/Feature`, `RenderFeature`): a type tag,
the flat coordinate buffer in the fixed 0..4096 local extent, and the optional
per-part (`getEnds`) and per-polygon (`getEndss`) length markers.  Coordinates
are rationals (the source works with JavaScript numbers; every value the claims
exercise is exactly representable). -/
structure RFeature where
  ftype : String
  flatCoordinates : List ℚ
  ends : Option (List Nat)
  endss : Option (List (List Nat))
deriving Repr, DecidableEq

/-- The lightweight geometry objects rebuilt by `cloneAndScaleGeometry_`
(`ol/geom` Point / MultiPoint / LineString / MultiLineString / Polygon /
MultiPolygon). -/
inductive Geom where
  | point (c : ℚ × ℚ)
  | multiPoint (cs : List (ℚ × ℚ))
  | lineString (cs : List (ℚ × ℚ))
  | multiLineString (ls : List (List (ℚ × ℚ)))
  | polygon (rings : List (List (ℚ × ℚ)))
  | multiPolygon (ps : List (List (List (ℚ × ℚ))))
deriving Repr, DecidableEq

/-- The inner loop `for (; i < end; i += 2) out.push([flat[i], flat[i + 1]]);`:
collects coordinate pairs from index `i` (stepping by 2) up to `stop`, and
returns the final value of the running index.  Out-of-range reads (only
possible on malformed length markers) yield the JavaScript `undefined`,
modelled by the default value 0. -/
def pushRange (flat : List ℚ) (i stop : Nat) : List (ℚ × ℚ) × Nat :=
  if i < stop then
    let r := pushRange flat (i + 2) stop
    ((flat.getD i 0, flat.getD (i + 1) 0) :: r.1, r.2)
  else
    ([], i)
termination_by stop - i

/-- `flatToCoords_(flat, ends)`: one running index shared across all parts
(lines 293-300 of `MVTWMSImageryProvider.ts`). -/
def flatToCoordsAux (flat : List ℚ) : List Nat → Nat → List (ℚ × ℚ)
  | [], _ => []
  | e :: rest, i =>
    let r := pushRange flat i e
    r.1 ++ flatToCoordsAux flat rest r.2

def flatToCoords (flat : List ℚ) (ends : List Nat) : List (ℚ × ℚ) :=
  flatToCoordsAux flat ends 0

/-- The ring-splitting loop used for `Polygon` and for each part of a
`MultiPolygon`: the running index is threaded through the rings. -/
def ringsAux (flat : List ℚ) : List Nat → Nat → List (List (ℚ × ℚ))
  | [], _ => []
  | e :: rest, i =>
    let r := pushRange flat i e
    r.1 :: ringsAux flat rest r.2

/-- The scaling loop of `cloneAndScaleGeometry_`: a freshly allocated buffer
whose even slots are `src[i] * sx` and odd slots are `src[i + 1] * sy`
(no offset, no Y flip; lines 308-312). -/
def scaleFlat (src : List ℚ) (sx sy : ℚ) : List ℚ :=
  src.enum.map (fun p => if p.1 % 2 = 0 then p.2 * sx else p.2 * sy)

/-- `cloneAndScaleGeometry_(f, sx, sy)` (lines 302-369): builds a new geometry
of the matching type from the scaled copy of the feature's flat buffer plus its
original length markers; unknown types (and multi-types without `getEndss`)
fall back to a single `LineString`.  The source's `if (!src) return null` guard
never fires for a `RenderFeature` (whose `getFlatCoordinates()` is always an
array, and an empty array is truthy in JavaScript), so the result is total. -/
def cloneAndScaleGeometry_ (f : RFeature) (sx sy : ℚ) : Geom :=
  let flat := scaleFlat f.flatCoordinates sx sy
  if f.ftype = "Point" then
    Geom.point (flat.getD 0 0, flat.getD 1 0)
  else if f.ftype = "MultiPoint" then
    Geom.multiPoint (pushRange flat 0 flat.length).1
  else if f.ftype = "LineString" then
    Geom.lineString (flatToCoords flat (f.ends.getD [flat.length]))
  else if f.ftype = "Polygon" then
    Geom.polygon (ringsAux flat (f.ends.getD [flat.length]) 0)
  else if f.ftype = "MultiLineString" && f.endss.isSome then
    Geom.multiLineString ((f.endss.getD []).map (fun ends => flatToCoords flat ends))
  else if f.ftype = "MultiPolygon" && f.endss.isSome then
    Geom.multiPolygon ((f.endss.getD []).map (fun ends => ringsAux flat ends 0))
  else
    Geom.lineString (flatToCoords flat (f.ends.getD [flat.length]))

/-- Styles are opaque identifiers; a style function may return nothing (falsy),
one style, or an array of styles — normalized here to an optional list, exactly
as `Array.isArray(styles) ? styles : [styles]` does. -/
abbrev StyleId := Nat

/-- One iteration of the `for (const f of features)` loop in
`rasterizeFeatures` (lines 382-394): clone-and-scale the feature's geometry,
resolve the style function on the ORIGINAL feature, and emit one draw operation
per returned style.  The feature is threaded through unchanged: the loop never
stores into `f` or its flat coordinate buffer. -/
def drawFeature (sx sy : ℚ) (styleFn : RFeature → ℚ → Option (List StyleId))
    (resolution : ℚ) (f : RFeature) : List (StyleId × Geom) × RFeature :=
  let g := cloneAndScaleGeometry_ f sx sy
  match styleFn f resolution with
  | none => ([], f)
  | some ss => (ss.map (fun s => (s, g)), f)

/-- `rasterizeFeatures(features, styleFn, resolution)` (lines 371-396): paints
every feature onto a fresh `tileWidth × tileHeight` canvas with per-axis scale
factors `tileWidth / 4096` and `tileHeight / 4096`.  The canvas is modelled as
the ordered list of draw operations; the second component is the feature list
as it stands after the loop. -/
def rasterizeFeatures (tileWidth tileHeight : ℚ) (features : List RFeature)
    (styleFn : RFeature → ℚ → Option (List StyleId)) (resolution : ℚ) :
    List (StyleId × Geom) × List RFeature :=
  let sx := tileWidth / 4096
  let sy := tileHeight / 4096
  match features with
  | [] => ([], [])
  | f :: rest =>
    let d := drawFeature sx sy styleFn resolution f
    let r := rasterizeFeatures tileWidth tileHeight rest styleFn resolution
    (d.1 ++ r.1, d.2 :: r.2)

/-- The tiling schemes the bridge can hold: the Cesium default placeholder and
the level-zero-parameterized geographic / web-mercator schemes, plus opaque
schemes adopted from a delegate. -/
inductive TS where
  | webMercator (nx ny : Nat)
  | geographic (nx ny : Nat)
  | custom (id : Nat)
deriving Repr, DecidableEq

/-- Rectangles: either the rectangle of a tiling scheme or an opaque
caller-supplied rectangle. -/
abbrev Rect := TS ⊕ Nat

/-- The settlement status of a promise. -/
inductive PromState where
  | pending
  | fulfilled
  | rejected
deriving Repr, DecidableEq

/-- The tile-size entry of the source's tile grid at zoom 0: either one number
(square tiles) or a `[width, height]` pair. -/
structure TileGridInfo where
  tileSize0 : Nat ⊕ (Nat × Nat)
  maxZoom : Nat

/-- Modelled from the spec (section 4.5): the generic raster bridge
(`OLImageryProvider`, code outside `src/`) that the Delegation Selector builds
when `olcs_wmsFormat` is configured.  Only its interface matters here: its
members are abstract behaviours, with `Option` for the members the bridge reads
through `??` or guards with a presence check. -/
structure Delegate where
  requestImage : Int → Int → Int → Option PromiseId
  getTileCredits : Option (Int → Int → Int → List String)
  pickFeatures : Option (Int → Int → Int → ℚ → ℚ → Option PromiseId)
  tileWidth : Nat
  tileHeight : Nat
  maximumLevel : Option Nat
  minimumLevel : Option Int
  tileDiscardPolicy : Option String
  hasAlphaChannel : Option Bool
  tilingScheme : TS
  rectangle : Option Rect

/-- One fetch issued by `getTileFeatures`: the request URL, the source-side
tile address, and the headers from the optional `olcs_authHeaders` hook. -/
structure FetchRec where
  url : String
  z : Int
  x : Int
  y : Int
  headers : List (String × String)
deriving Repr, DecidableEq

/-- Construction-time configuration and external collaborators of one bridge:
the module-level coordinate-convention probe, the vector source's state, URL
templating, projection (already resolved against the constructor's fallback —
the source dereferences it unconditionally once the source is ready), tile
grid, the optional proxy / auth-header / WMS-delegation configuration values,
and the behaviour of the delegate raster bridge when one is built. -/
structure Env where
  olUseNewCoordinates : Bool
  sourceReady : Bool
  sourceProjection : String
  levelZeroTiles : Nat × Nat
  tileGrid : Option TileGridInfo
  tileUrlFunction : Option (Int → Int → Int → String → Option String)
  proxy : Option (String → String)
  authHeaders : Option (Int → Int → Int → List (String × String))
  attributions : Option (Int → List String)
  wmsFormat : Option String
  wmsBaseAvailable : Bool
  delegateImpl : Delegate

/-- The `MVTWMSOptions` the application passes to the constructor. -/
structure Opts where
  rectangle : Option Rect
  cacheSize : Option Nat
  featureCache : Option (LRU PromiseId)
  minimumLevel : Int

/-- The full state of one bridge instance: the `BridgeState` fields plus the
two caches and the bookkeeping of the asynchronous world (fresh promise ids,
fetches issued so far, promise derivations created by `.then`, settled
promises, and the number of `errorEvent.raiseEvent` notifications). -/
structure Bridge where
  ready : Bool
  projection : Option String
  shouldRequestNextLevel : Bool
  tilingScheme : TS
  rectangle : Option Rect
  minimumLevel_ : Int
  delegate : Option Delegate
  tileCache : LRU PromiseId
  featureCache : LRU PromiseId
  nextId : PromiseId
  fetches : List FetchRec
  derived : List (PromiseId × PromiseId)
  settled : List (PromiseId × Bool)
  errorEvents : Nat

/-- The default `new Cesium.WebMercatorTilingScheme()` placeholder installed at
construction (single level-zero tile on each axis). -/
def placeholderScheme : TS := TS.webMercator 1 1

/-- The constructor (lines 129-159), up to but not including the initial
`handleSourceChanged_()` call. -/
def initBridge (opts : Opts) : Bridge :=
  let cacheSize := opts.cacheSize.getD 50
  { ready := false
    projection := none
    shouldRequestNextLevel := false
    tilingScheme := placeholderScheme
    rectangle := match opts.rectangle with
      | some r => some r
      | none => some (Sum.inl placeholderScheme)
    minimumLevel_ := opts.minimumLevel
    delegate := none
    tileCache := { entries := [], highWaterMark := cacheSize }
    featureCache := opts.featureCache.getD { entries := [], highWaterMark := cacheSize }
    nextId := 1
    fetches := []
    derived := []
    settled := []
    errorEvents := 0 }

/-- `tryInitOlWmsDelegate_()` (lines 494-518): when `olcs_wmsFormat` is set and
a base WMS source is obtainable (companion or derived), build the delegate and
adopt its tiling scheme, rectangle and readiness.  The construction of the
delegate itself (`cloneTileWms_` / `deriveTileWmsFromVector_` around an
`OLImageryProvider`) lives outside `src/` and is represented by
`env.delegateImpl`. -/
def tryInitOlWmsDelegate_ (env : Env) (b : Bridge) : Bridge :=
  match env.wmsFormat with
  | none => b
  | some _ =>
    if env.wmsBaseAvailable then
      let d := env.delegateImpl
      { b with
        delegate := some d
        tilingScheme := d.tilingScheme
        rectangle := match d.rectangle with
          | some r => some r
          | none => b.rectangle
        ready := true }
    else b

/-- `handleSourceChanged_()` (lines 161-194).  Note the order of effects: the
projection is stored BEFORE the projection-code dispatch, so an unsupported
projection leaves the bridge unready but with `projection_` set. -/
def handleSourceChanged_ (env : Env) (b : Bridge) : Bridge :=
  if b.ready then b
  else if env.sourceReady then
    let b1 := { b with projection := some env.sourceProjection }
    let nx := env.levelZeroTiles.1
    let ny := env.levelZeroTiles.2
    if env.sourceProjection = "EPSG:4326" then
      let b2 := { b1 with
        shouldRequestNextLevel := nx = 1 && ny = 1
        tilingScheme := TS.geographic nx ny }
      let b3 := { b2 with
        rectangle := match b2.rectangle with
          | none => some (Sum.inl b2.tilingScheme)
          | some r => some r
        ready := true }
      tryInitOlWmsDelegate_ env b3
    else if env.sourceProjection = "EPSG:3857" then
      let b2 := { b1 with
        shouldRequestNextLevel := false
        tilingScheme := TS.webMercator nx ny }
      let b3 := { b2 with
        rectangle := match b2.rectangle with
          | none => some (Sum.inl b2.tilingScheme)
          | some r => some r
        ready := true }
      tryInitOlWmsDelegate_ env b3
    else b1
  else b

/-- `getCacheKey_(z, x, y)`: the template string `z_x_y`. -/
def getCacheKey_ (z x y : Int) : String :=
  toString z ++ "_" ++ toString x ++ "_" ++ toString y

/-- `getTileFeatures(url, z, x, y)` (lines 265-284): feature-cache lookup, on a
miss start the `fetch` (a fresh pending promise, one fetch recorded), insert
the promise into the feature cache and groom it. -/
def getTileFeatures (env : Env) (b : Bridge) (url : String) (z x y : Int) :
    PromiseId × Bridge :=
  let key := getCacheKey_ z x y
  match b.featureCache.get key with
  | (some p, fc) => (p, { b with featureCache := fc })
  | (none, _) =>
    let pid := b.nextId
    let headers := match env.authHeaders with
      | some f => f z x y
      | none => []
    { b with
      nextId := pid + 1
      fetches := b.fetches ++ [{ url := url, z := z, x := x, y := y, headers := headers }]
      featureCache := LRU.groomAfterSet (b.featureCache.set key pid) } |> (pid, ·)

/-- `requestImage(x, y, z)` (lines 212-263).  Returns the promise handed to the
consumer (or `undefined`) and the successor state.  All of this runs
synchronously: the `.then` continuation that rasterizes is a derived promise
recorded in `derived`, and no suspension happens between the cache lookups and
the cache inserts.  The proxy rewrite is applied to the produced URL (the
source applies `proxy.getURL` unconditionally, but every scenario of the spec
either has no proxy or a produced URL). -/
def requestImage (env : Env) (b : Bridge) (x y z : Int) :
    Option PromiseId × Bridge :=
  match b.delegate with
  | some d => (d.requestImage x y z, b)
  | none =>
    let z_ := if b.shouldRequestNextLevel then z + 1 else z
    if z < b.minimumLevel_ then (some emptyPid, b)
    else
      let cacheKey := getCacheKey_ z_ x y
      match b.tileCache.get cacheKey with
      | (some p, tc) => (some p, { b with tileCache := tc })
      | (none, _) =>
        match env.tileUrlFunction, b.projection with
        | some urlFn, some proj =>
          let y_ := if env.olUseNewCoordinates then y else -y - 1
          let url := match urlFn z_ x y_ proj with
            | some u => some (match env.proxy with
              | some pf => pf u
              | none => u)
            | none => none
          match url with
          | some u =>
            let r := getTileFeatures env b u z_ x y
            let featPid := r.1
            let b1 := r.2
            let tilePid := b1.nextId
            let b2 := { b1 with
              nextId := tilePid + 1
              derived := b1.derived ++ [(tilePid, featPid)] }
            (some tilePid,
              { b2 with tileCache := LRU.groomAfterSet (b2.tileCache.set cacheKey tilePid) })
          | none =>
            (some emptyPid,
              { b with tileCache := LRU.groomAfterSet (b.tileCache.set cacheKey emptyPid) })
        | _, _ => (none, b)

/-- The settlement of one fetch chain: when the network request for the feature
promise `featPid` completes (`ok := false` covers a non-ok response, a network
error or a decode throw), the feature promise settles accordingly, and every
tile promise created as `featureRecordPromise.then(rasterize)` settles the same
way — rejections propagate because the source attaches no rejection handler
and no `.catch` to the chain, and nothing on this path raises `errorEvent`. -/
def settleFetch (b : Bridge) (featPid : PromiseId) (ok : Bool) : Bridge :=
  { b with
    settled := b.settled ++ [(featPid, ok)] ++
      ((b.derived.filter (fun p => p.2 == featPid)).map (fun p => (p.1, ok))) }

/-- The observable settlement status of a promise: the placeholder promise is
fulfilled from construction (`Promise.resolve(emptyCanvas)`). -/
def stateOf (b : Bridge) (pid : PromiseId) : PromState :=
  if pid = emptyPid then PromState.fulfilled
  else
    match b.settled.find? (fun p => p.1 == pid) with
    | some p => if p.2 then PromState.fulfilled else PromState.rejected
    | none => PromState.pending

/-- `n` back-to-back synchronous `requestImage` calls for the same address:
the list of returned promises and the final state. -/
def callRepeat (env : Env) (b : Bridge) (x y z : Int) : Nat → List (Option PromiseId) × Bridge
  | 0 => ([], b)
  | n + 1 =>
    let r := requestImage env b x y z
    let rest := callRepeat env r.2 x y z n
    (r.1 :: rest.1, rest.2)

/-- The `tileWidth` getter (lines 81-89). -/
def bridgeTileWidth (env : Env) (b : Bridge) : Nat :=
  match b.delegate with
  | some d => d.tileWidth
  | none =>
    match env.tileGrid with
    | some tg => match tg.tileSize0 with
      | Sum.inl n => n
      | Sum.inr wh => wh.1
    | none => 256

/-- The `tileHeight` getter (lines 91-99). -/
def bridgeTileHeight (env : Env) (b : Bridge) : Nat :=
  match b.delegate with
  | some d => d.tileHeight
  | none =>
    match env.tileGrid with
    | some tg => match tg.tileSize0 with
      | Sum.inl n => n
      | Sum.inr wh => wh.2
    | none => 256

/-- The `maximumLevel` getter (lines 101-105): on the delegate path the
delegate's value with an `?? 18` fallback. -/
def bridgeMaximumLevel (env : Env) (b : Bridge) : Nat :=
  match b.delegate with
  | some d => d.maximumLevel.getD 18
  | none =>
    match env.tileGrid with
    | some tg => tg.maxZoom
    | none => 18

/-- The `minimumLevel` getter (lines 107-110). -/
def bridgeMinimumLevel (b : Bridge) : Int :=
  match b.delegate with
  | some d => d.minimumLevel.getD 0
  | none => b.minimumLevel_

/-- The `tileDiscardPolicy` getter (lines 112-115). -/
def bridgeTileDiscardPolicy (b : Bridge) : Option String :=
  match b.delegate with
  | some d => d.tileDiscardPolicy
  | none => none

/-- The `hasAlphaChannel` getter (lines 117-120): `?? true` on the delegate
path. -/
def bridgeHasAlphaChannel (b : Bridge) : Bool :=
  match b.delegate with
  | some d => d.hasAlphaChannel.getD true
  | none => true

/-- `pickFeatures` (lines 122-127): forwarded when the delegate defines it,
otherwise `undefined`. -/
def bridgePickFeatures (b : Bridge) (x y level : Int) (lon lat : ℚ) :
    Option PromiseId :=
  match b.delegate with
  | some d =>
    match d.pickFeatures with
    | some pf => pf x y level lon lat
    | none => none
  | none => none

/-- `getTileCredits` (lines 196-206): forwarded when the delegate defines it;
otherwise the vector attribution path (the conversion helper
`attributionsFunctionToCredits` lives outside `src/` and is modelled, per the
spec's interface section, as a function of the reconciled zoom). -/
def bridgeGetTileCredits (env : Env) (b : Bridge) (x y level : Int) : List String :=
  let vectorPath :=
    match env.attributions with
    | none => []
    | some fn => fn (if b.shouldRequestNextLevel then level + 1 else level)
  match b.delegate with
  | some d =>
    match d.getTileCredits with
    | some g => g x y level
    | none => vectorPath
  | none => vectorPath

/-- The source-side level `z_` actually requested: `z + 1` under the
geographic single-root quirk. -/
def zOf (b : Bridge) (z : Int) : Int :=
  if b.shouldRequestNextLevel then z + 1 else z

/-- The source-side row actually requested: `-y - 1` under the legacy
bottom-to-top convention. -/
def yOf (env : Env) (y : Int) : Int :=
  if env.olUseNewCoordinates then y else -y - 1

/-- The cache key used by both caches for a consumer request `(x, y, z)`. -/
def keyOf (b : Bridge) (x y z : Int) : String :=
  getCacheKey_ (zOf b z) x y

/-- The optional proxy rewrite applied to a produced URL. -/
def applyProxy (env : Env) (u : String) : String :=
  match env.proxy with
  | some pf => pf u
  | none => u

/-- The headers obtained from the optional `olcs_authHeaders` hook. -/
def headersOf (env : Env) (z x y : Int) : List (String × String) :=
  match env.authHeaders with
  | some f => f z x y
  | none => []

/-- The successor state of a `requestImage` call that misses both caches and
produces a URL: one fetch recorded, the feature promise `b.nextId` in the
feature cache, the derived tile promise `b.nextId + 1` in the tile cache, both
caches groomed. -/
def afterMiss (env : Env) (b : Bridge) (x y z : Int) (u : String) : Bridge :=
  { b with
    nextId := b.nextId + 2
    fetches := b.fetches ++
      [{ url := applyProxy env u, z := zOf b z, x := x, y := y,
         headers := headersOf env (zOf b z) x y }]
    featureCache := LRU.groomAfterSet (b.featureCache.set (keyOf b x y z) b.nextId)
    derived := b.derived ++ [(b.nextId + 1, b.nextId)]
    tileCache := LRU.groomAfterSet (b.tileCache.set (keyOf b x y z) (b.nextId + 1)) }

theorem get_miss {V : Type} (c : LRU V) (k : String)
    (h : c.containsKey k = false) : c.get k = (none, c) := by
  have hf : c.entries.find? (fun p => p.1 == k) = none := by
    rw [List.find?_eq_none]
    intro p hp
    have := (LRU.containsKey_eq_false_iff c k).1 h p hp
    simpa [beq_iff_eq] using this
  unfold LRU.get
  rw [hf]

/-- A double cache miss with a produced URL: the returned promise is the fresh
derived tile promise `b.nextId + 1` and the successor state is `afterMiss`. -/
theorem requestImage_miss (env : Env) (b : Bridge) (x y z : Int)
    (f : Int → Int → Int → String → Option String) (p u : String)
    (hdel : b.delegate = none)
    (hmin : ¬ z < b.minimumLevel_)
    (hfn : env.tileUrlFunction = some f)
    (hproj : b.projection = some p)
    (hurl : f (zOf b z) x (yOf env y) p = some u)
    (htc : b.tileCache.containsKey (keyOf b x y z) = false)
    (hfc : b.featureCache.containsKey (keyOf b x y z) = false) :
    requestImage env b x y z = (some (b.nextId + 1), afterMiss env b x y z u) := by
  have hgt : b.tileCache.get (getCacheKey_ (if b.shouldRequestNextLevel then z + 1 else z) x y) =
      (none, b.tileCache) := by
    apply get_miss
    simpa [keyOf, zOf] using htc
  have hgf : b.featureCache.get (getCacheKey_ (if b.shouldRequestNextLevel then z + 1 else z) x y) =
      (none, b.featureCache) := by
    apply get_miss
    simpa [keyOf, zOf] using hfc
  have hurl2 : f (if b.shouldRequestNextLevel then z + 1 else z) x
      (if env.olUseNewCoordinates then y else -y - 1) p = some u := by
    simpa [zOf, yOf] using hurl
  simp only [requestImage, hdel, if_neg hmin, hgt, hfn, hproj, getTileFeatures, hgf, hurl2,
    afterMiss, applyProxy, headersOf, keyOf, zOf]

/-- A tile-cache hit: the cached promise is returned unchanged and the only
state effect is the LRU touch of the tile cache. -/
theorem requestImage_hit (env : Env) (b : Bridge) (x y z : Int) (t : PromiseId)
    (hdel : b.delegate = none)
    (hmin : ¬ z < b.minimumLevel_)
    (hlook : b.tileCache.lookup (keyOf b x y z) = some t) :
    requestImage env b x y z =
      (some t, { b with tileCache := (b.tileCache.get (keyOf b x y z)).2 }) ∧
    ({ b with tileCache := (b.tileCache.get (keyOf b x y z)).2 }).tileCache.lookup
      (keyOf b x y z) = some t := by
  obtain ⟨h1, h2, _⟩ := LRU.get_hit b.tileCache (keyOf b x y z) t hlook
  have hget : b.tileCache.get (keyOf b x y z) =
      (some t, (b.tileCache.get (keyOf b x y z)).2) := by
    rw [← h1]
  have hget2 : b.tileCache.get (getCacheKey_ (if b.shouldRequestNextLevel then z + 1 else z) x y) =
      (some t, (b.tileCache.get (keyOf b x y z)).2) := by
    simpa [keyOf, zOf] using hget
  constructor
  · simp only [requestImage, hdel, if_neg hmin, hget2]
  · exact h2

/-- `requestImage` only moves the caches and the asynchronous bookkeeping:
the configuration fields of the bridge are untouched. -/
theorem requestImage_preserves (env : Env) (b : Bridge) (x y z : Int) :
    ((requestImage env b x y z).2).delegate = b.delegate ∧
    ((requestImage env b x y z).2).shouldRequestNextLevel = b.shouldRequestNextLevel ∧
    ((requestImage env b x y z).2).minimumLevel_ = b.minimumLevel_ ∧
    ((requestImage env b x y z).2).projection = b.projection ∧
    ((requestImage env b x y z).2).errorEvents = b.errorEvents ∧
    ((requestImage env b x y z).2).ready = b.ready := by
  refine ⟨?_, ?_, ?_, ?_, ?_, ?_⟩ <;>
    (simp only [requestImage, getTileFeatures]
     repeat' split
     all_goals rfl)

/-- `settleFetch` only appends to `settled`. -/
theorem settleFetch_preserves (b : Bridge) (featPid : PromiseId) (ok : Bool) :
    (settleFetch b featPid ok).delegate = b.delegate ∧
    (settleFetch b featPid ok).shouldRequestNextLevel = b.shouldRequestNextLevel ∧
    (settleFetch b featPid ok).minimumLevel_ = b.minimumLevel_ ∧
    (settleFetch b featPid ok).tileCache = b.tileCache ∧
    (settleFetch b featPid ok).fetches = b.fetches ∧
    (settleFetch b featPid ok).errorEvents = b.errorEvents :=
  ⟨rfl, rfl, rfl, rfl, rfl, rfl⟩

/-- `tryInitOlWmsDelegate_` never touches the reconciliation flag. -/
theorem tryInit_flag (env : Env) (b : Bridge) :
    (tryInitOlWmsDelegate_ env b).shouldRequestNextLevel = b.shouldRequestNextLevel := by
  unfold tryInitOlWmsDelegate_
  repeat' split
  all_goals rfl

/-- Once `ready_` is true, the change handler returns without any effect. -/
theorem handleSourceChanged_of_ready (env : Env) (b : Bridge) (h : b.ready = true) :
    handleSourceChanged_ env b = b := by
  unfold handleSourceChanged_
  rw [if_pos h]

/-- With an unsupported projection code the change handler only records the
projection: readiness, the delegate and the flag are untouched. -/
theorem handleSourceChanged_unsupported (env : Env) (b : Bridge)
    (h1 : env.sourceProjection ≠ "EPSG:4326") (h2 : env.sourceProjection ≠ "EPSG:3857") :
    (handleSourceChanged_ env b).ready = b.ready ∧
    (handleSourceChanged_ env b).delegate = b.delegate ∧
    (handleSourceChanged_ env b).shouldRequestNextLevel = b.shouldRequestNextLevel ∧
    (b.ready = false → env.sourceReady = true →
      (handleSourceChanged_ env b).projection = some env.sourceProjection) := by
  unfold handleSourceChanged_
  by_cases hr : b.ready = true
  · rw [if_pos hr]
    refine ⟨rfl, rfl, rfl, ?_⟩
    intro hf
    rw [hr] at hf
    exact absurd hf (by simp)
  · rw [if_neg hr]
    by_cases hs : env.sourceReady = true
    · rw [if_pos hs, if_neg h1, if_neg h2]
      exact ⟨rfl, rfl, rfl, fun _ _ => rfl⟩
    · rw [if_neg hs]
      refine ⟨rfl, rfl, rfl, fun _ hs2 => absurd hs2 hs⟩

/-- The hit-only phase of repeated identical requests: every call returns the
cached promise and no fetch is recorded. -/
theorem callRepeat_hits (env : Env) (x y z : Int) (t : PromiseId) (F : List FetchRec) :
    ∀ (n : Nat) (b : Bridge),
    b.delegate = none →
    ¬ z < b.minimumLevel_ →
    b.tileCache.lookup (keyOf b x y z) = some t →
    b.fetches = F →
    (callRepeat env b x y z n).1 = List.replicate n (some t) ∧
    (callRepeat env b x y z n).2.fetches = F := by
  intro n
  induction n with
  | zero => exact fun b _ _ _ hF => ⟨rfl, hF⟩
  | succ m ih =>
    intro b h1 h2 h3 hF
    obtain ⟨he, hl⟩ := requestImage_hit env b x y z t h1 h2 h3
    have hrec := ih { b with tileCache := (b.tileCache.get (keyOf b x y z)).2 }
      h1 h2 hl hF
    simp only [callRepeat, he, List.replicate_succ]
    exact ⟨by rw [hrec.1], hrec.2⟩

section Fixtures

/-- A concrete delegate behaviour used to instantiate the theorems about the
WMS delegation path. -/
def sampleDelegate : Delegate :=
  { requestImage := fun _ _ _ => some 42
    getTileCredits := some (fun _ _ _ => ["wms-credit"])
    pickFeatures := some (fun _ _ _ _ _ => some 7)
    tileWidth := 512
    tileHeight := 512
    maximumLevel := some 20
    minimumLevel := some 2
    tileDiscardPolicy := some "policy"
    hasAlphaChannel := some false
    tilingScheme := TS.custom 5
    rectangle := some (Sum.inr 9) }

/-- A concrete healthy web-mercator environment. -/
def sampleEnv : Env :=
  { olUseNewCoordinates := true
    sourceReady := true
    sourceProjection := "EPSG:3857"
    levelZeroTiles := (1, 1)
    tileGrid := none
    tileUrlFunction := some (fun z x y _ =>
      some ("t/" ++ toString z ++ "/" ++ toString x ++ "/" ++ toString y))
    proxy := none
    authHeaders := none
    attributions := none
    wmsFormat := none
    wmsBaseAvailable := false
    delegateImpl := sampleDelegate }

/-- Options without a minimum level. -/
def sampleOpts : Opts :=
  { rectangle := none, cacheSize := none, featureCache := none, minimumLevel := 0 }

/-- Options with `minimumLevel = 5`. -/
def minOpts : Opts :=
  { rectangle := none, cacheSize := none, featureCache := none, minimumLevel := 5 }

/-- A ready vector-path bridge on the healthy environment. -/
def sampleBridge : Bridge := handleSourceChanged_ sampleEnv (initBridge sampleOpts)

/-- A ready vector-path bridge with `minimumLevel = 5`. -/
def minBridge : Bridge := handleSourceChanged_ sampleEnv (initBridge minOpts)

/-- The unsupported-projection environment of the spec's scenario. -/
def env9999 : Env := { sampleEnv with sourceProjection := "EPSG:9999" }

/-- The bridge after the source reported ready with projection EPSG:9999. -/
def bridge9999 : Bridge := handleSourceChanged_ env9999 (initBridge sampleOpts)

/-- A geographic environment with a single level-zero tile on both axes. -/
def env4326 : Env := { sampleEnv with sourceProjection := "EPSG:4326" }

/-- An environment with the WMS delegation marker set and a derivable base. -/
def envDelegate : Env :=
  { sampleEnv with wmsFormat := some "image/png", wmsBaseAvailable := true }

/-- A bridge whose delegate activated at readiness, with `minimumLevel = 5`. -/
def delegateBridge : Bridge := handleSourceChanged_ envDelegate (initBridge minOpts)

/-- The feature spanning the full local extent, for the scaling claim. -/
def spanFeature : RFeature :=
  { ftype := "LineString", flatCoordinates := [0, 0, 4096, 4096],
    ends := some [4], endss := none }

end Fixtures

/-- C3: for either cache, `set` never evicts immediately; after the bridge's
post-insert grooming, exactly when the occupancy exceeds twice the high-water
mark the oldest entries are popped until occupancy equals the high-water mark,
and an insert that leaves occupancy at or below twice the high-water mark
evicts nothing. -/
theorem cache_hysteresis_eviction (c : LRU PromiseId) (k : String) (v : PromiseId) :
    (c.set k v).entries = c.entries ++ [(k, v)] ∧
    (LRU.groomAfterSet (c.set k v)).entries =
      (if c.entries.length + 1 > 2 * c.highWaterMark
       then (c.entries ++ [(k, v)]).drop (c.entries.length + 1 - c.highWaterMark)
       else c.entries ++ [(k, v)]) ∧
    (LRU.groomAfterSet (c.set k v)).getCount =
      (if c.entries.length + 1 > 2 * c.highWaterMark
       then c.highWaterMark
       else c.entries.length + 1) := by
  refine ⟨rfl, ?_, ?_⟩
  · unfold LRU.groomAfterSet
    by_cases h : (c.set k v).getCount > 2 * (c.set k v).highWaterMark
    · rw [if_pos h]
      have h2 : c.entries.length + 1 > 2 * c.highWaterMark := by
        simpa [LRU.set, LRU.getCount] using h
      rw [if_pos h2]
      obtain ⟨h1, _⟩ := LRU.expireLoop_entries (c.set k v)
      rw [h1]
      simp [LRU.set]
    · rw [if_neg h]
      have h2 : ¬ c.entries.length + 1 > 2 * c.highWaterMark := by
        simp only [LRU.set, LRU.getCount] at h
        simpa using h
      rw [if_neg h2]
      rfl
  · unfold LRU.groomAfterSet
    by_cases h : (c.set k v).getCount > 2 * (c.set k v).highWaterMark
    · rw [if_pos h]
      have h2 : c.entries.length + 1 > 2 * c.highWaterMark := by
        simpa [LRU.set, LRU.getCount] using h
      rw [if_pos h2]
      obtain ⟨h1, _⟩ := LRU.expireLoop_entries (c.set k v)
      unfold LRU.getCount
      rw [h1]
      simp only [LRU.set, List.length_drop, List.length_append]
      simp only [List.length_cons, List.length_nil]
      omega
    · rw [if_neg h]
      have h2 : ¬ c.entries.length + 1 > 2 * c.highWaterMark := by
        simp only [LRU.set, LRU.getCount] at h
        simpa using h
      rw [if_neg h2]
      simp [LRU.set, LRU.getCount]

/-- C4: on the vector path, a request strictly below the configured
`minimumLevel` returns the already-resolved placeholder promise and leaves the
entire state untouched — no cache lookup, no URL construction, no fetch. -/
theorem belowMinimumLevel_placeholder (env : Env) (b : Bridge) (x y z : Int)
    (hdel : b.delegate = none) (hz : z < b.minimumLevel_) :
    requestImage env b x y z = (some emptyPid, b) ∧
    stateOf b emptyPid = PromState.fulfilled := by
  constructor
  · unfold requestImage
    rw [hdel]
    simp only [if_pos hz]
  · unfold stateOf
    rw [if_pos rfl]

/-- Witness for C4 at a concrete bridge with `minimumLevel = 5` and `z = 2`. -/
theorem belowMinimumLevel_placeholder_witness :
    requestImage sampleEnv minBridge 0 0 2 = (some emptyPid, minBridge) ∧
    stateOf minBridge emptyPid = PromState.fulfilled :=
  belowMinimumLevel_placeholder sampleEnv minBridge 0 0 2 (by rfl) (by decide)

/-- C10: when the WMS delegate is active, `requestImage` forwards to the
delegate even for levels strictly below the configured `minimumLevel_`; the
below-minimum short-circuit never runs on the delegated path. -/
theorem delegate_precedes_minimumLevel (env : Env) (b : Bridge) (d : Delegate)
    (x y z : Int) (hd : b.delegate = some d) (hz : z < b.minimumLevel_) :
    requestImage env b x y z = (d.requestImage x y z, b) := by
  unfold requestImage
  rw [hd]

/-- Witness for C10: the delegate bridge has `minimumLevel_ = 5`, yet a level-2
request is forwarded (answer 42) instead of the placeholder. -/
theorem delegate_precedes_minimumLevel_witness :
    requestImage envDelegate delegateBridge 0 0 2 =
      (sampleDelegate.requestImage 0 0 2, delegateBridge) ∧
    sampleDelegate.requestImage 0 0 2 = some 42 ∧ (42 : Nat) ≠ emptyPid := by
  refine ⟨delegate_precedes_minimumLevel envDelegate delegateBridge sampleDelegate
    0 0 2 (by rfl) (by decide), rfl, by decide⟩

/-- C6: `rasterizeFeatures` never mutates a decoded feature: the feature list
after the loop is the input list (in particular every flat coordinate buffer is
bit-identical to its pre-call contents), and every draw operation paints a
geometry rebuilt by `cloneAndScaleGeometry_` from a scaled copy of the
original buffer. -/
theorem rasterize_never_mutates_buffers (tw th : ℚ) (fs : List RFeature)
    (sf : RFeature → ℚ → Option (List StyleId)) (res : ℚ) :
    (rasterizeFeatures tw th fs sf res).2 = fs ∧
    (rasterizeFeatures tw th fs sf res).2.map RFeature.flatCoordinates =
      fs.map RFeature.flatCoordinates ∧
    (rasterizeFeatures tw th fs sf res).1 = fs.flatMap (fun f =>
      match sf f res with
      | none => []
      | some ss => ss.map (fun s => (s, cloneAndScaleGeometry_ f (tw / 4096) (th / 4096)))) := by
  induction fs with
  | nil => exact ⟨rfl, rfl, rfl⟩
  | cons f rest ih =>
    obtain ⟨ih1, ih2, ih3⟩ := ih
    refine ⟨?_, ?_, ?_⟩
    · simp only [rasterizeFeatures]
      rw [ih1]
      unfold drawFeature
      cases sf f res <;> rfl
    · simp only [rasterizeFeatures, List.map_cons]
      rw [ih1]
      unfold drawFeature
      cases sf f res <;> simp
    · simp only [rasterizeFeatures, List.flatMap_cons]
      rw [ih3]
      unfold drawFeature
      cases sf f res <;> rfl

/-- C7: a feature spanning the full 0..4096 local extent rasterized onto a
256 x 256 tile lands exactly on the tile corners [0,0] and [256,256]: the
per-axis scale factors are tileWidth/4096 and tileHeight/4096, with no offset
and no Y flip. -/
theorem fullExtent_scales_to_tile_corners :
    cloneAndScaleGeometry_ spanFeature ((256 : ℚ) / 4096) ((256 : ℚ) / 4096) =
      Geom.lineString [(0, 0), (256, 256)] ∧
    (rasterizeFeatures 256 256 [spanFeature] (fun _ _ => some [0]) 1).1 =
      [(0, Geom.lineString [(0, 0), (256, 256)])] := by
  have hflat : scaleFlat [0, 0, 4096, 4096] ((256 : ℚ) / 4096) ((256 : ℚ) / 4096) =
      [0, 0, 256, 256] := by
    simp [scaleFlat, List.enum, List.enumFrom]
    norm_num
  have hgeom : cloneAndScaleGeometry_ spanFeature ((256 : ℚ) / 4096) ((256 : ℚ) / 4096) =
      Geom.lineString [(0, 0), (256, 256)] := by
    simp only [cloneAndScaleGeometry_, spanFeature, hflat]
    norm_num
    simp [flatToCoords, flatToCoordsAux, pushRange]
  refine ⟨hgeom, ?_⟩
  simp only [rasterizeFeatures, drawFeature, hgeom]
  rfl

/-- C1: N synchronous `requestImage` calls for the identical `(x, y, z)` before
anything settles: each of the N calls returns the same promise (the derived
tile promise `b.nextId + 1` created by the first call), and exactly one fetch
is issued.  The cache lookup-then-set happens synchronously before any await,
so calls 2..N hit the tile cache. -/
theorem requestImage_coalesces_concurrent_requests (env : Env) (b : Bridge)
    (x y z : Int) (f : Int → Int → Int → String → Option String) (p u : String)
    (n : Nat)
    (hdel : b.delegate = none)
    (hmin : ¬ z < b.minimumLevel_)
    (hfn : env.tileUrlFunction = some f)
    (hproj : b.projection = some p)
    (hurl : f (zOf b z) x (yOf env y) p = some u)
    (htc : b.tileCache.containsKey (keyOf b x y z) = false)
    (hfc : b.featureCache.containsKey (keyOf b x y z) = false)
    (hhwm : 1 ≤ b.tileCache.highWaterMark) :
    (callRepeat env b x y z (n + 1)).1 =
      List.replicate (n + 1) (some (b.nextId + 1)) ∧
    (callRepeat env b x y z (n + 1)).2.fetches = b.fetches ++
      [{ url := applyProxy env u, z := zOf b z, x := x, y := y,
         headers := headersOf env (zOf b z) x y }] := by
  have hmiss := requestImage_miss env b x y z f p u hdel hmin hfn hproj hurl htc hfc
  have hlook : (afterMiss env b x y z u).tileCache.lookup
      (keyOf (afterMiss env b x y z u) x y z) = some (b.nextId + 1) :=
    (LRU.lookup_groom_set_fresh b.tileCache (keyOf b x y z) (b.nextId + 1) htc hhwm).1
  have hrec := callRepeat_hits env x y z (b.nextId + 1)
    (afterMiss env b x y z u).fetches n (afterMiss env b x y z u)
    hdel hmin hlook rfl
  simp only [callRepeat, hmiss, List.replicate_succ]
  exact ⟨by rw [hrec.1], by rw [hrec.2]; rfl⟩

/-- Witness for C1: three back-to-back calls for tile (3, 4, 5) on a fresh
bridge all return promise 2 and record a single fetch. -/
theorem requestImage_coalesces_concurrent_requests_witness :
    (callRepeat sampleEnv sampleBridge 3 4 5 3).1 = List.replicate 3 (some 2) ∧
    (callRepeat sampleEnv sampleBridge 3 4 5 3).2.fetches.length = 1 := by
  obtain ⟨h1, h2⟩ := requestImage_coalesces_concurrent_requests sampleEnv sampleBridge
    3 4 5 (fun z x y _ => some ("t/" ++ toString z ++ "/" ++ toString x ++ "/" ++ toString y))
    "EPSG:3857" "t/5/3/4" 2
    (by rfl) (by decide) (by rfl) (by rfl) (by decide) (by decide) (by decide) (by decide)
  constructor
  · rw [h1]
    rfl
  · rw [h2]
    rfl

/-- C8: at the become-ready transition a geographic source with a single
level-zero tile on both axes sets `shouldRequestNextLevel := true`, a
web-mercator source sets it to `false` regardless of the level-zero counts,
and the flag is never changed afterwards: the change handler is a no-op once
ready, and `requestImage` never writes the flag. -/
theorem readyTransition_shouldRequestNextLevel (env : Env) (b : Bridge)
    (hready : b.ready = false) (hsrc : env.sourceReady = true) :
    (env.sourceProjection = "EPSG:4326" → env.levelZeroTiles = (1, 1) →
      (handleSourceChanged_ env b).shouldRequestNextLevel = true) ∧
    (env.sourceProjection = "EPSG:3857" →
      (handleSourceChanged_ env b).shouldRequestNextLevel = false) ∧
    (∀ (env2 : Env) (b2 : Bridge), b2.ready = true →
      handleSourceChanged_ env2 b2 = b2) ∧
    (∀ (env2 : Env) (b2 : Bridge) (x y z : Int),
      ((requestImage env2 b2 x y z).2).shouldRequestNextLevel =
        b2.shouldRequestNextLevel) := by
  have hnr : ¬ (b.ready = true) := by rw [hready]; simp
  refine ⟨?_, ?_, ?_, ?_⟩
  · intro h4326 htiles
    unfold handleSourceChanged_
    rw [if_neg hnr, if_pos hsrc, if_pos h4326, tryInit_flag]
    simp [htiles]
  · intro h3857
    have hne : ¬ (env.sourceProjection = "EPSG:4326") := by rw [h3857]; simp
    unfold handleSourceChanged_
    rw [if_neg hnr, if_pos hsrc, if_neg hne, if_pos h3857, tryInit_flag]
  · exact fun env2 b2 h => handleSourceChanged_of_ready env2 b2 h
  · exact fun env2 b2 x y z => (requestImage_preserves env2 b2 x y z).2.1

/-- Witness for C8: a concrete geographic 1x1 source flips the flag to true, a
concrete web-mercator source leaves it false, and after readiness another
change event leaves the bridge untouched. -/
theorem readyTransition_shouldRequestNextLevel_witness :
    (handleSourceChanged_ env4326 (initBridge sampleOpts)).shouldRequestNextLevel = true ∧
    (handleSourceChanged_ sampleEnv (initBridge sampleOpts)).shouldRequestNextLevel = false ∧
    handleSourceChanged_ sampleEnv sampleBridge = sampleBridge := by
  refine ⟨?_, ?_, ?_⟩
  · exact (readyTransition_shouldRequestNextLevel env4326 (initBridge sampleOpts)
      rfl rfl).1 rfl rfl
  · exact (readyTransition_shouldRequestNextLevel sampleEnv (initBridge sampleOpts)
      rfl rfl).2.1 rfl
  · exact (readyTransition_shouldRequestNextLevel sampleEnv (initBridge sampleOpts)
      rfl rfl).2.2.1 sampleEnv sampleBridge rfl

/-- C9: with the WMS delegate active, `requestImage`, `getTileCredits` and
`pickFeatures` forward verbatim to the delegate (with the state untouched, so
the vector fetch/rasterize pipeline is never invoked again), every capability
read returns the delegate's value, and the delegate persists: once ready the
change handler never rebuilds the bridge. -/
theorem delegate_forwarding (env : Env) (b : Bridge) (d : Delegate)
    (x y z : Int) (lon lat : ℚ)
    (hd : b.delegate = some d) (hready : b.ready = true) :
    requestImage env b x y z = (d.requestImage x y z, b) ∧
    (∀ g, d.getTileCredits = some g → bridgeGetTileCredits env b x y z = g x y z) ∧
    (∀ pf, d.pickFeatures = some pf →
      bridgePickFeatures b x y z lon lat = pf x y z lon lat) ∧
    bridgeTileWidth env b = d.tileWidth ∧
    bridgeTileHeight env b = d.tileHeight ∧
    (∀ m, d.maximumLevel = some m → bridgeMaximumLevel env b = m) ∧
    (∀ m, d.minimumLevel = some m → bridgeMinimumLevel b = m) ∧
    bridgeTileDiscardPolicy b = d.tileDiscardPolicy ∧
    (∀ a, d.hasAlphaChannel = some a → bridgeHasAlphaChannel b = a) ∧
    (∀ env2, handleSourceChanged_ env2 b = b) := by
  refine ⟨?_, ?_, ?_, ?_, ?_, ?_, ?_, ?_, ?_, ?_⟩
  · unfold requestImage
    rw [hd]
  · intro g hg
    simp only [bridgeGetTileCredits, hd, hg]
  · intro pf hpf
    simp only [bridgePickFeatures, hd, hpf]
  · simp only [bridgeTileWidth, hd]
  · simp only [bridgeTileHeight, hd]
  · intro m hm
    simp only [bridgeMaximumLevel, hd, hm, Option.getD_some]
  · intro m hm
    simp only [bridgeMinimumLevel, hd, hm, Option.getD_some]
  · simp only [bridgeTileDiscardPolicy, hd]
  · intro a ha
    simp only [bridgeHasAlphaChannel, hd, ha, Option.getD_some]
  · exact fun env2 => handleSourceChanged_of_ready env2 b hready

/-- Witness for C9 at the concrete delegate bridge. -/
theorem delegate_forwarding_witness :
    requestImage envDelegate delegateBridge 1 2 3 = (some 42, delegateBridge) ∧
    bridgeGetTileCredits envDelegate delegateBridge 1 2 3 = ["wms-credit"] ∧
    bridgeMaximumLevel envDelegate delegateBridge = 20 ∧
    bridgeHasAlphaChannel delegateBridge = false := by
  obtain ⟨h1, h2, _, _, _, h6, _, _, h9, _⟩ :=
    delegate_forwarding envDelegate delegateBridge sampleDelegate 1 2 3 0 0 rfl rfl
  exact ⟨by rw [h1]; rfl, by rw [h2 _ rfl], h6 20 rfl, h9 false rfl⟩

theorem find?_none_of_keys {α : Type} (l : List (PromiseId × α)) (t : PromiseId)
    (h : ∀ q ∈ l, q.1 ≠ t) : l.find? (fun q => q.1 == t) = none := by
  rw [List.find?_eq_none]
  intro x hx
  simpa [beq_iff_eq] using h x hx

/-- C2 counterexample: with the source reporting projection EPSG:9999 the
bridge indeed never becomes ready, but `requestImage` does NOT return the
placeholder: the change handler stored `projection_` before bailing out, so the
request builds a URL and issues a fetch. -/
theorem unsupportedProjection_placeholder_counterexample :
    bridge9999.ready = false ∧
    (requestImage env9999 bridge9999 0 0 0).1 ≠ some emptyPid ∧
    (requestImage env9999 bridge9999 0 0 0).2.fetches.length = 1 := by
  refine ⟨rfl, by decide, by decide⟩

/-- C2 (amended): with an unsupported projection, `ready` stays false forever
and no delegate ever activates; but `requestImage` is not short-circuited to
the placeholder — the handler records the projection, and any request at or
above `minimumLevel` whose URL resolves follows the normal vector fetch path
(the placeholder is returned only below `minimumLevel` or when no URL is
produced). -/
theorem unsupportedProjection_stays_unready_amended (env : Env) (b : Bridge)
    (hready : b.ready = false)
    (h1 : env.sourceProjection ≠ "EPSG:4326")
    (h2 : env.sourceProjection ≠ "EPSG:3857") :
    (∀ n : Nat, ((handleSourceChanged_ env)^[n] b).ready = false) ∧
    (∀ n : Nat, ((handleSourceChanged_ env)^[n] b).delegate = b.delegate) ∧
    (env.sourceReady = true →
      (handleSourceChanged_ env b).projection = some env.sourceProjection) ∧
    (∀ (b2 : Bridge) (x y z : Int) (f : Int → Int → Int → String → Option String)
        (p u : String),
      b2.delegate = none → ¬ z < b2.minimumLevel_ →
      env.tileUrlFunction = some f → b2.projection = some p →
      f (zOf b2 z) x (yOf env y) p = some u →
      b2.tileCache.containsKey (keyOf b2 x y z) = false →
      b2.featureCache.containsKey (keyOf b2 x y z) = false →
      (requestImage env b2 x y z).1 = some (b2.nextId + 1) ∧
      (requestImage env b2 x y z).1 ≠ some emptyPid ∧
      (requestImage env b2 x y z).2.fetches.length = b2.fetches.length + 1) := by
  refine ⟨?_, ?_, ?_, ?_⟩
  · intro n
    induction n with
    | zero => simpa using hready
    | succ m ih =>
      rw [Function.iterate_succ_apply']
      rw [(handleSourceChanged_unsupported env _ h1 h2).1]
      exact ih
  · intro n
    induction n with
    | zero => simp
    | succ m ih =>
      rw [Function.iterate_succ_apply']
      rw [(handleSourceChanged_unsupported env _ h1 h2).2.1]
      exact ih
  · exact (handleSourceChanged_unsupported env b h1 h2).2.2.2 hready
  · intro b2 x y z f p u hdel hmin hfn hproj hurl htc hfc
    have hmiss := requestImage_miss env b2 x y z f p u hdel hmin hfn hproj hurl htc hfc
    rw [hmiss]
    refine ⟨rfl, by simp [emptyPid], ?_⟩
    simp [afterMiss]

/-- Witness for the amended C2 at the concrete EPSG:9999 scenario. -/
theorem unsupportedProjection_stays_unready_amended_witness :
    ((handleSourceChanged_ env9999)^[3] (initBridge sampleOpts)).ready = false ∧
    (handleSourceChanged_ env9999 (initBridge sampleOpts)).projection = some "EPSG:9999" ∧
    (requestImage env9999 bridge9999 0 0 0).1 = some 2 := by
  obtain ⟨ha, _, hc, hd⟩ := unsupportedProjection_stays_unready_amended env9999
    (initBridge sampleOpts) rfl (by decide) (by decide)
  refine ⟨ha 3, hc rfl, ?_⟩
  exact (hd bridge9999 0 0 0
    (fun z x y _ => some ("t/" ++ toString z ++ "/" ++ toString x ++ "/" ++ toString y))
    "EPSG:9999" "t/0/0/0"
    rfl (by decide) rfl rfl (by decide) (by decide) (by decide)).1

/-- C5 counterexample: at a concrete failing fetch the tile promise is
rejected, yet the error-notification channel is never raised (the claim
demands exactly one notification): `errorEvent.raiseEvent` lives only in the
synchronous catch of `requestImage`, and no rejection handler is attached to
the promise chain. -/
theorem networkFailure_errorEvent_counterexample :
    stateOf (settleFetch (requestImage sampleEnv sampleBridge 0 0 0).2 1 false) 2 =
      PromState.rejected ∧
    (settleFetch (requestImage sampleEnv sampleBridge 0 0 0).2 1 false).errorEvents = 0 ∧
    ¬ (settleFetch (requestImage sampleEnv sampleBridge 0 0 0).2 1 false).errorEvents = 1 := by
  refine ⟨by decide, by decide, by decide⟩

/-- C5 (amended): on a network or decode failure the promise returned for the
tile rejects and the bridge does not retry automatically — the rejected
promise stays in the tile cache and is handed back to the next request for the
same key with no new fetch; the failure is NOT reported on the `errorEvent`
channel (the error count is unchanged — the channel is only raised for
synchronous exceptions inside `requestImage`). -/
theorem networkFailure_rejects_no_retry_amended (env : Env) (b : Bridge) (x y z : Int)
    (f : Int → Int → Int → String → Option String) (p u : String)
    (hdel : b.delegate = none)
    (hmin : ¬ z < b.minimumLevel_)
    (hfn : env.tileUrlFunction = some f)
    (hproj : b.projection = some p)
    (hurl : f (zOf b z) x (yOf env y) p = some u)
    (htc : b.tileCache.containsKey (keyOf b x y z) = false)
    (hfc : b.featureCache.containsKey (keyOf b x y z) = false)
    (hhwm : 1 ≤ b.tileCache.highWaterMark)
    (hset : ∀ q ∈ b.settled, q.1 ≠ b.nextId + 1)
    (hder : ∀ q ∈ b.derived, q.1 ≠ b.nextId + 1) :
    stateOf (settleFetch (requestImage env b x y z).2 b.nextId false) (b.nextId + 1) =
      PromState.rejected ∧
    (settleFetch (requestImage env b x y z).2 b.nextId false).errorEvents = b.errorEvents ∧
    (requestImage env (settleFetch (requestImage env b x y z).2 b.nextId false) x y z).1 =
      some (b.nextId + 1) ∧
    (requestImage env (settleFetch (requestImage env b x y z).2 b.nextId false) x y z).2.fetches =
      (settleFetch (requestImage env b x y z).2 b.nextId false).fetches := by
  have hmiss := requestImage_miss env b x y z f p u hdel hmin hfn hproj hurl htc hfc
  simp only [hmiss]
  have hfind : (settleFetch (afterMiss env b x y z u) b.nextId false).settled.find?
      (fun q => q.1 == b.nextId + 1) = some (b.nextId + 1, false) := by
    show ((b.settled ++ [(b.nextId, false)]) ++
      (((b.derived ++ [(b.nextId + 1, b.nextId)]).filter (fun q => q.2 == b.nextId)).map
        (fun q => (q.1, false)))).find? (fun q => q.1 == b.nextId + 1) = some (b.nextId + 1, false)
    rw [List.find?_append, List.find?_append]
    rw [find?_none_of_keys _ _ hset]
    rw [find?_none_of_keys ([(b.nextId, false)]) _
      (by intro q hq; simp only [List.mem_singleton] at hq; subst hq; simp)]
    rw [List.filter_append]
    have hlast : ([(b.nextId + 1, b.nextId)].filter (fun q => q.2 == b.nextId)) =
        [(b.nextId + 1, b.nextId)] := by simp
    rw [hlast, List.map_append]
    rw [List.find?_append]
    rw [find?_none_of_keys _ _ (by
      intro q hq
      simp only [List.mem_map] at hq
      obtain ⟨r, hr, hrq⟩ := hq
      have : r ∈ b.derived := List.mem_of_mem_filter hr
      have := hder r this
      rw [← hrq]
      simpa using this)]
    simp
  constructor
  · unfold stateOf
    rw [if_neg (by simp [emptyPid]), hfind]
    simp
  have hlook2 : (settleFetch (afterMiss env b x y z u) b.nextId false).tileCache.lookup
      (keyOf (settleFetch (afterMiss env b x y z u) b.nextId false) x y z) =
      some (b.nextId + 1) :=
    (LRU.lookup_groom_set_fresh b.tileCache (keyOf b x y z) (b.nextId + 1) htc hhwm).1
  obtain ⟨he, _⟩ := requestImage_hit env
    (settleFetch (afterMiss env b x y z u) b.nextId false) x y z (b.nextId + 1)
    (show (settleFetch (afterMiss env b x y z u) b.nextId false).delegate = none from hdel)
    (show ¬ z < (settleFetch (afterMiss env b x y z u) b.nextId false).minimumLevel_ from hmin)
    hlook2
  refine ⟨rfl, ?_, ?_⟩
  · rw [he]
  · rw [he]

/-- Witness for the amended C5 at the concrete failing fetch. -/
theorem networkFailure_rejects_no_retry_amended_witness :
    stateOf (settleFetch (requestImage sampleEnv sampleBridge 0 0 0).2
      sampleBridge.nextId false) (sampleBridge.nextId + 1) = PromState.rejected ∧
    (requestImage sampleEnv (settleFetch (requestImage sampleEnv sampleBridge 0 0 0).2
      sampleBridge.nextId false) 0 0 0).1 = some (sampleBridge.nextId + 1) := by
  obtain ⟨h1, _, h3, _⟩ := networkFailure_rejects_no_retry_amended sampleEnv sampleBridge
    0 0 0
    (fun z x y _ => some ("t/" ++ toString z ++ "/" ++ toString x ++ "/" ++ toString y))
    "EPSG:3857" "t/0/0/0"
    rfl (by decide) rfl rfl (by decide) (by decide) (by decide) (by decide)
    (by decide) (by decide)
  exact ⟨h1, h3⟩

end OlcsMVTWMS
